import Mathlib

/-!
Verification of the gisnav map-update / pose-estimation coordination engine
(`gisnav/nodes/base_node.py`) against its natural-language specification.

The embedding models the coordinator's state and the operations the claims
are about. Pure numeric code is translated into `ℚ`/`ℕ` functions; the
stateful worker callbacks become explicit state-passing functions on a
`NodeState` record, returning the new state (and, for the pose callback,
the list of published `FixedCamera` results).

The geometric / linear-algebra primitives that live in the repository's
`gisnav.geo` and `gisnav.data` modules are not part of the provided source
tree; where a claim needs them they are modelled from the spec (each such
definition carries a doc comment starting with `Modelled from the spec:`).
External library computations (scipy rotation magnitudes, `math.atan`,
radians/degrees conversion) are abstracted as function parameters, since
their numeric content is irrational-valued and not decided by this
repository's code.
-/

namespace GisNav

/-- Pixel dimensions (`Dim` namedtuple, fields `height width`). -/
structure Dim where
  height : ℕ
  width : ℕ
deriving DecidableEq

/-- An image raster (`Img` wrapper around a numpy array); modelled as a
list-of-rows matrix so that `shape` is meaningful. -/
structure Img where
  arr : List (List ℤ)
deriving DecidableEq

/-- The first two components of a numpy array `.shape` (rows, columns). -/
def Img.shape (img : Img) : ℕ × ℕ :=
  (img.arr.length, (img.arr.headD []).length)

/-- Camera intrinsics and declared dimensions (`CameraData`): intrinsic
matrix `k`, focal length `fx`, principal point `cx, cy`, declared `dim`. -/
structure CameraData where
  k : List (List ℚ)
  fx : ℚ
  cx : ℚ
  cy : ℚ
  dim : Dim
deriving DecidableEq

/-- Modelled from the spec: `gisnav.geo.GeoPoint` (not under src/), a point
in a planar coordinate system; coordinates taken as rationals. -/
structure GeoPoint where
  x : ℚ
  y : ℚ
deriving DecidableEq

/-- Modelled from the spec: `gisnav.geo.GeoSquare` (not under src/), a
square bounding region given by center and radius (half side length). -/
structure GeoSquare where
  center : GeoPoint
  radius : ℚ
deriving DecidableEq

def GeoSquare.left (s : GeoSquare) : ℚ := s.center.x - s.radius

def GeoSquare.right (s : GeoSquare) : ℚ := s.center.x + s.radius

def GeoSquare.bottom (s : GeoSquare) : ℚ := s.center.y - s.radius

def GeoSquare.top (s : GeoSquare) : ℚ := s.center.y + s.radius

/-- Modelled from the spec: bounding-box area math of `gisnav.geo`
(not under src/): the area of the axis-aligned square. -/
def GeoSquare.area (s : GeoSquare) : ℚ :=
  (s.right - s.left) * (s.top - s.bottom)

/-- Modelled from the spec: bounding-box intersection/area math of
`gisnav.geo` (not under src/): area of the intersection of two
axis-aligned bounding boxes (`a.intersection(b).area`). -/
def GeoSquare.intersectionArea (a b : GeoSquare) : ℚ :=
  max 0 (min a.right b.right - max a.left b.left) *
    max 0 (min a.top b.top - max a.bottom b.bottom)

/-- One fetched reference raster with its world bounding box and optional
elevation raster (`MapData`). -/
structure MapData where
  bbox : GeoSquare
  image : Img
  elevation : Option Img
deriving DecidableEq

/-- One camera frame with its context (`ImageData`). -/
structure ImageData where
  image : Img
  frame_id : String
  timestamp : ℕ
  camera_data : CameraData
deriving DecidableEq

/-- Map cropped/rotated to align with camera yaw (`ContextualMapData`). -/
structure ContextualMapData where
  rotation : ℚ
  crop : Dim
  map_data : MapData
  altitude_scaling : Option ℚ
deriving DecidableEq

/-- A query image paired with its reference contextual map (`ImagePair`). -/
structure ImagePair where
  qry : ImageData
  ref : ContextualMapData
deriving DecidableEq

/-- Vehicle roll/pitch/yaw attitude (`Attitude`); angles as rationals
(the unit conversion the source applies is abstracted by the `degrees`
function parameter of `camera_roll_or_pitch_too_high`). -/
structure Attitude where
  roll : ℚ
  pitch : ℚ
  yaw : ℚ
deriving DecidableEq

/-- Snapshot of vehicle-state context captured at dispatch time
(`InputData`): rotation guess, attitude and the two ground elevations. -/
structure InputData where
  r_guess : Option (List (List ℚ))
  attitude : Option Attitude
  ground_elevation : Option ℚ
  ground_elevation_ellipsoid : Option ℚ
deriving DecidableEq

/-- Camera pose: rotation matrix and translation vector (`Pose`). -/
structure Pose where
  r : List (List ℚ)
  t : List ℚ
deriving DecidableEq

/-- Raw (rotation, translation) tuple returned by the pose-estimation
worker, before the fallible `Pose` constructor has run on it. -/
def RawPose : Type := List (List ℚ) × List ℚ

/-- World-referenced camera result (`FixedCamera`): the fields the
coordinator passes to its constructor. -/
structure FixedCamera where
  pose : Pose
  image_pair : ImagePair
  ground_elevation : Option ℚ
  ground_elevation_ellipsoid : Option ℚ
  timestamp : ℕ
deriving DecidableEq

/-- In-flight WMS map request (`AsyncWMSQuery`): readiness of its
`AsyncResult` plus the dispatch-time requested bounding box. -/
structure AsyncWMSQuery where
  resultReady : Bool
  geobbox : GeoSquare
deriving DecidableEq

/-- In-flight pose-estimation request (`AsyncPoseQuery`): readiness of its
`AsyncResult` plus the dispatch-time image pair and input data. -/
structure AsyncPoseQuery where
  resultReady : Bool
  image_pair : ImagePair
  input_data : InputData
deriving DecidableEq

/-- Autopilot bridge telemetry visible to the coordinator. -/
structure Bridge where
  gimbal_set_attitude : Option Attitude
  attitude : Option Attitude
  altitude_agl : Option ℚ
  camera_data : Option CameraData
deriving DecidableEq

/-- The ROS parameters the modelled operations read. -/
structure Params where
  static_camera : Bool
  attitude_deviation_threshold : ℚ
  misc_max_pitch : ℚ
  min_match_altitude : ℚ
  map_update_gimbal_projection : Bool
  map_update_max_pitch : ℚ
  map_update_max_map_radius : ℚ
  update_map_area_threshold : ℚ
deriving DecidableEq

/-- The coordinator-owned mutable state of `BaseNode`. -/
structure NodeState where
  wms_query : Option AsyncWMSQuery
  pose_estimation_query : Option AsyncPoseQuery
  map_data : Option MapData
  map_input_data : Option InputData
  map_input_data_prev : Option InputData
  fixed_camera_prev : Option FixedCamera
  pose_guess : Option Pose
deriving DecidableEq

/-- Source `_wms_results_pending`: true iff a WMS query exists and its result is
not yet ready (`not self._wms_query.result.ready() if ... else False`). -/
def wms_results_pending (s : NodeState) : Bool :=
  match s.wms_query with
  | some q => !q.resultReady
  | none => false

/-- The pending-results test of `_should_estimate` condition (2):
`not (self._pose_estimation_query is None or ....result.ready())`. -/
def pose_estimation_results_pending (s : NodeState) : Bool :=
  match s.pose_estimation_query with
  | some q => !q.resultReady
  | none => false

/-- Source `_camera_roll_or_pitch_too_high`: true if the (set) camera roll or pitch
exceeds `max_pitch` or the needed attitude is unavailable. The source's
radians-to-degrees conversion (`np.degrees`) of the gimbal pitch is
abstracted as the function parameter `degrees`. -/
def camera_roll_or_pitch_too_high (degrees : ℚ → ℚ) (static_camera : Bool)
    (gimbal_set_attitude att : Option Attitude) (max_pitch : ℚ) : Bool :=
  match gimbal_set_attitude with
  | some g =>
    if !static_camera then
      decide (degrees g.pitch + 90 > max_pitch)
    else
      match att with
      | none => true
      | some a => decide (max a.pitch a.roll > max_pitch)
  | none =>
    if !static_camera then
      true
    else
      match att with
      | none => true
      | some a => decide (max a.pitch a.roll > max_pitch)

/-- Source `_previous_map_too_close`: true iff a previous map exists and the
symmetric containment ratio of the candidate bbox against the previous
map's bbox strictly exceeds the configured area threshold. -/
def previous_map_too_close (map_data : Option MapData) (area_threshold : ℚ)
    (bbox : GeoSquare) : Bool :=
  match map_data with
  | some previous_map_data =>
    let intersection1 :=
      GeoSquare.intersectionArea bbox previous_map_data.bbox / bbox.area
    let intersection2 :=
      GeoSquare.intersectionArea previous_map_data.bbox bbox / previous_map_data.bbox.area
    decide (min intersection1 intersection2 > area_threshold)
  | none => false

/-- Source `_should_request_new_map`: false if a previous WMS request is pending,
false if the previous map is too close to the candidate, false if gimbal
projection is in use and camera pitch is too high; otherwise true. -/
def should_request_new_map (degrees : ℚ → ℚ) (s : NodeState) (b : Bridge)
    (p : Params) (bbox : GeoSquare) : Bool :=
  if wms_results_pending s then
    false
  else if previous_map_too_close s.map_data p.update_map_area_threshold bbox then
    false
  else if p.map_update_gimbal_projection &&
      camera_roll_or_pitch_too_high degrees p.static_camera
        b.gimbal_set_attitude b.attitude p.map_update_max_pitch then
    false
  else
    true

/-- Source `_should_estimate`: false if no reference map is available, false if a
previous pose-estimation query is pending, false if camera roll/pitch is
too high, false if AGL altitude is unknown or below the minimum match
altitude; otherwise true. (The source's `img` argument plays no role in
the decision and is omitted.) -/
def should_estimate (degrees : ℚ → ℚ) (s : NodeState) (b : Bridge)
    (p : Params) : Bool :=
  if s.map_data.isNone then
    false
  else if pose_estimation_results_pending s then
    false
  else if camera_roll_or_pitch_too_high degrees p.static_camera
      b.gimbal_set_attitude b.attitude p.misc_max_pitch then
    false
  else
    match b.altitude_agl with
    | none => false
    | some alt => if alt < p.min_match_altitude then false else true

/-- Source `_get_dynamic_map_radius`: radius `1.5 * hfov * altitude` with camera
data, `3 * altitude` without, clamped to `max_map_radius`. The source's
`hfov = 2 * atan(width / (2 * fx))` is irrational-valued and abstracted as
the function parameter `hfov_of`. -/
def get_dynamic_map_radius (hfov_of : CameraData → ℚ)
    (camera_data : Option CameraData) (max_map_radius altitude : ℚ) : ℚ :=
  let map_radius :=
    match camera_data with
    | some cd => 1.5 * hfov_of cd * altitude
    | none => 3 * altitude
  if map_radius > max_map_radius then max_map_radius else map_radius

/-- Exact value of `math.ceil(math.sqrt n)` for a natural number `n`, computed exactly. -/
def ceilSqrt (n : ℕ) : ℕ :=
  if Nat.sqrt n * Nat.sqrt n = n then Nat.sqrt n else Nat.sqrt n + 1

/-- Source `_map_size_with_padding`: the square `(d, d)` with `d` the ceiling of
the diagonal of the declared camera dimensions, or `None` when camera data
is not available. -/
def map_size_with_padding (camera_data : Option CameraData) :
    Option (ℕ × ℕ) :=
  match camera_data with
  | none => none
  | some cd =>
    let diagonal := ceilSqrt (cd.dim.width ^ 2 + cd.dim.height ^ 2)
    (diagonal, diagonal)

/-- The map update timer handle created by `_setup_map_update_timer`. -/
structure MapUpdateTimer where
  period : ℤ
deriving DecidableEq

/-- Source `_setup_map_update_timer`: raises `ValueError` when the configured
period fails `0 <= timer_period`, otherwise creates the timer. The raised
exception is modelled as `Except.error`. -/
def setup_map_update_timer (timer_period : ℤ) : Except String MapUpdateTimer :=
  if ¬ 0 ≤ timer_period then
    Except.error "Map update delay must be >0 seconds."
  else
    Except.ok { period := timer_period }

/-- Source `_wms_pool_worker_callback`: asserts the elevation raster (if present)
has the map raster's shape and the map raster has the padded size, then
replaces `_map_data` with a `MapData` built from the fetched raster and
the query's dispatch-time bounding box. A failed assertion raises, so the
state is left unchanged; the source reads `self._wms_query.geobbox`
unconditionally, which faults when no query exists — also leaving the
state unchanged. -/
def wms_pool_worker_callback (camera_data : Option CameraData)
    (s : NodeState) (map_ : Img) (elevation : Option Img) : NodeState :=
  if (match elevation with
      | some e => decide (e.shape = map_.shape)
      | none => true) &&
     decide (some map_.shape = map_size_with_padding camera_data) then
    match s.wms_query with
    | some q =>
      { s with map_data := some { bbox := q.geobbox, image := map_, elevation := elevation } }
    | none => s
  else
    s

/-- Source `_wms_pool_worker_error_callback`: only logs the exception; the state
is untouched. -/
def wms_pool_worker_error_callback (s : NodeState) : NodeState := s

/-- Modelled from the spec: the fallible `FixedCamera` constructor of
`gisnav.data` (not under src/) — "position must be finite, FOV polygon
must be constructible from pose"; the geometric feasibility check is
abstracted as the predicate `fc_ok`, and on success the record holds
exactly the fields the coordinator passes in. -/
def mkFixedCamera (fc_ok : Pose → ImagePair → Bool) (pose : Pose)
    (image_pair : ImagePair)
    (ground_elevation ground_elevation_ellipsoid : Option ℚ)
    (timestamp : ℕ) : Option FixedCamera :=
  if fc_ok pose image_pair then
    some { pose := pose, image_pair := image_pair,
           ground_elevation := ground_elevation,
           ground_elevation_ellipsoid := ground_elevation_ellipsoid,
           timestamp := timestamp }
  else
    none

/-- Source `_pose_estimation_worker_callback`. `mkPose` abstracts the fallible
`Pose(*result)` constructor of `gisnav.data` (not under src/; it raises
`DataValueError` on degenerate input), `fc_ok` the fallible `FixedCamera`
construction, and `valid` the `_is_valid_estimate` check as invoked here.
Returns the new state together with the list of published results. On the
worker returning nothing or `Pose` construction failing, nothing changes;
once a `Pose` is built, `_pose_guess` is overwritten; `publish` and the
two previous-state updates happen only after `FixedCamera` construction
and the validity check both succeed. When `FixedCamera` construction
raises after the query was cleared to `None` the source faults reading
`self._pose_estimation_query.image_pair`, again changing nothing more. -/
def pose_estimation_worker_callback (mkPose : RawPose → Option Pose)
    (fc_ok : Pose → ImagePair → Bool)
    (valid : FixedCamera → InputData → Bool)
    (s : NodeState) (result : Option RawPose) : NodeState × List FixedCamera :=
  match result with
  | none => (s, [])
  | some raw =>
    match mkPose raw with
    | none => (s, [])
    | some pose =>
      let s1 := { s with pose_guess := some pose }
      match s1.pose_estimation_query with
      | none => (s1, [])
      | some q =>
        match mkFixedCamera fc_ok pose q.image_pair q.input_data.ground_elevation
            q.input_data.ground_elevation_ellipsoid q.image_pair.qry.timestamp with
        | none => (s1, [])
        | some fixed_camera =>
          if valid fixed_camera q.input_data then
            ({ s1 with map_input_data_prev := s1.map_input_data,
                       fixed_camera_prev := some fixed_camera },
             [fixed_camera])
          else
            (s1, [])

/-- Source `_estimate`: records an `AsyncPoseQuery` holding the dispatch-time
image pair and input data (the worker dispatch itself is external). -/
def estimate (s : NodeState) (image_pair : ImagePair)
    (input_data : InputData) : NodeState :=
  { s with
    pose_estimation_query := some { resultReady := false, image_pair := image_pair, input_data := input_data } }

/-- Source `_is_valid_estimate`: rejects when the static-camera branch lacks the
vehicle attitude, rejects when the gimbaled branch lacks the dispatch-time
rotation guess, and otherwise rejects exactly when the rotation-difference
magnitude strictly exceeds the attitude-deviation threshold converted from
degrees to radians. The scipy rotation-difference magnitude
(`Rotation.magnitude(r_estimate * r_guess.inv())`) is abstracted as the
input `magnitude`, and `np.radians` as the function parameter `radians`. -/
def is_valid_estimate (radians : ℚ → ℚ) (static_camera : Bool)
    (vehicle_attitude : Option Attitude) (r_guess : Option (List (List ℚ)))
    (magnitude threshold_deg : ℚ) : Bool :=
  if static_camera && vehicle_attitude.isNone then
    false
  else if r_guess.isNone && !static_camera then
    false
  else if magnitude > radians threshold_deg then
    false
  else
    true

/-! ### Concrete fixtures used by the witnesses -/

def testDim : Dim := { height := 1, width := 1 }

def testImg : Img := { arr := [[0]] }

def testCameraData : CameraData :=
  { k := [[1, 0, 0], [0, 1, 0], [0, 0, 1]], fx := 1, cx := 0, cy := 0, dim := testDim }

def testCameraData480 : CameraData :=
  { k := [[1, 0, 0], [0, 1, 0], [0, 0, 1]], fx := 1, cx := 0, cy := 0,
    dim := { height := 480, width := 640 } }

def testSquare : GeoSquare := { center := { x := 0, y := 0 }, radius := 400 }

def testSquareNear : GeoSquare := { center := { x := 5, y := 5 }, radius := 400 }

def testMapData : MapData := { bbox := testSquare, image := testImg, elevation := none }

def testImageData : ImageData :=
  { image := testImg, frame_id := "camera", timestamp := 5, camera_data := testCameraData }

def testContextualMapData : ContextualMapData :=
  { rotation := 0, crop := testDim, map_data := testMapData, altitude_scaling := none }

def testImagePair : ImagePair := { qry := testImageData, ref := testContextualMapData }

def testInputData : InputData :=
  { r_guess := some [[1]], attitude := none, ground_elevation := some 10,
    ground_elevation_ellipsoid := some 12 }

def testPoseQuery : AsyncPoseQuery :=
  { resultReady := false, image_pair := testImagePair, input_data := testInputData }

def testWMSQuery : AsyncWMSQuery := { resultReady := false, geobbox := testSquare }

/-- A state with both worker queries dispatched and unresolved. -/
def testStatePending : NodeState :=
  { wms_query := some testWMSQuery, pose_estimation_query := some testPoseQuery,
    map_data := some testMapData, map_input_data := none, map_input_data_prev := none,
    fixed_camera_prev := none, pose_guess := none }

/-- A state with no in-flight query and a stored previous map. -/
def testStateIdle : NodeState :=
  { wms_query := none, pose_estimation_query := none,
    map_data := some testMapData, map_input_data := none, map_input_data_prev := none,
    fixed_camera_prev := none, pose_guess := none }

def testBridge : Bridge :=
  { gimbal_set_attitude := none, attitude := none, altitude_agl := some 100,
    camera_data := some testCameraData }

/-- A bridge with a nadir-pointing gimbal (pitch -90, so pitch from nadir 0). -/
def testBridgeNadir : Bridge :=
  { gimbal_set_attitude := some { roll := 0, pitch := -90, yaw := 0 }, attitude := none,
    altitude_agl := some 100, camera_data := some testCameraData }

def testParams : Params :=
  { static_camera := false, attitude_deviation_threshold := 10, misc_max_pitch := 30,
    min_match_altitude := 80, map_update_gimbal_projection := true,
    map_update_max_pitch := 30, map_update_max_map_radius := 400,
    update_map_area_threshold := 85 / 100 }

/-! ### Claim theorems -/

/-- C1: while a prior WMS map query is unresolved, `_should_request_new_map`
returns false for any candidate bounding box, and while a prior
pose-estimation query is unresolved, `_should_estimate` returns false, so a
second dispatch of the same kind is never attempted while one is pending. -/
theorem at_most_one_in_flight_guards (degrees : ℚ → ℚ) (s : NodeState)
    (b : Bridge) (p : Params) (bbox : GeoSquare) (wq : AsyncWMSQuery)
    (pq : AsyncPoseQuery) :
    (s.wms_query = some wq → wq.resultReady = false →
      should_request_new_map degrees s b p bbox = false) ∧
    (s.pose_estimation_query = some pq → pq.resultReady = false →
      should_estimate degrees s b p = false) := by
  constructor
  · intro h1 h2
    simp [should_request_new_map, wms_results_pending, h1, h2]
  · intro h1 h2
    cases hm : s.map_data <;>
      simp [should_estimate, pose_estimation_results_pending, h1, h2, hm]

theorem at_most_one_in_flight_guards_witness :
    should_request_new_map id testStatePending testBridge testParams testSquare = false ∧
    should_estimate id testStatePending testBridge testParams = false :=
  ⟨(at_most_one_in_flight_guards id testStatePending testBridge testParams testSquare
      testWMSQuery testPoseQuery).1 rfl rfl,
   (at_most_one_in_flight_guards id testStatePending testBridge testParams testSquare
      testWMSQuery testPoseQuery).2 rfl rfl⟩

/-- C2: with a previous map stored, no WMS request pending and the
gimbal-projection pitch limit not applying, `_should_request_new_map`
returns false exactly when the symmetric overlap ratio
`min(inter(C,B)/area(C), inter(B,C)/area(B))` strictly exceeds the
configured threshold, and returns true at a ratio equal to or below it. -/
theorem map_reuse_threshold (degrees : ℚ → ℚ) (s : NodeState) (b : Bridge)
    (p : Params) (bbox : GeoSquare) (previous_map_data : MapData)
    (hmap : s.map_data = some previous_map_data)
    (hpend : wms_results_pending s = false)
    (hpitch : (p.map_update_gimbal_projection &&
      camera_roll_or_pitch_too_high degrees p.static_camera
        b.gimbal_set_attitude b.attitude p.map_update_max_pitch) = false) :
    (should_request_new_map degrees s b p bbox = false ↔
      min (GeoSquare.intersectionArea bbox previous_map_data.bbox / bbox.area)
          (GeoSquare.intersectionArea previous_map_data.bbox bbox / previous_map_data.bbox.area)
        > p.update_map_area_threshold) ∧
    (min (GeoSquare.intersectionArea bbox previous_map_data.bbox / bbox.area)
          (GeoSquare.intersectionArea previous_map_data.bbox bbox / previous_map_data.bbox.area)
        ≤ p.update_map_area_threshold →
      should_request_new_map degrees s b p bbox = true) := by
  have hclose : previous_map_too_close s.map_data p.update_map_area_threshold bbox =
      decide (min (GeoSquare.intersectionArea bbox previous_map_data.bbox / bbox.area)
          (GeoSquare.intersectionArea previous_map_data.bbox bbox / previous_map_data.bbox.area)
        > p.update_map_area_threshold) := by
    rw [hmap]
    rfl
  constructor
  · rw [should_request_new_map, hpend, hclose, hpitch]
    by_cases hr : min (GeoSquare.intersectionArea bbox previous_map_data.bbox / bbox.area)
        (GeoSquare.intersectionArea previous_map_data.bbox bbox / previous_map_data.bbox.area)
        > p.update_map_area_threshold <;> simp [hr]
  · intro hle
    rw [should_request_new_map, hpend, hclose, hpitch]
    simp [not_lt.mpr hle]

theorem map_reuse_threshold_witness :
    should_request_new_map id testStateIdle testBridgeNadir testParams testSquareNear = false :=
  (map_reuse_threshold id testStateIdle testBridgeNadir testParams testSquareNear
      testMapData rfl rfl
      (by norm_num [camera_roll_or_pitch_too_high, testParams, testBridgeNadir])).1.mpr
    (by norm_num [GeoSquare.intersectionArea, GeoSquare.area, GeoSquare.left,
      GeoSquare.right, GeoSquare.top, GeoSquare.bottom, testSquareNear, testMapData,
      testSquare, testParams])

/-- C3: for positive altitude, the dynamic map radius is
`1.5 * hfov * altitude` when camera data is available and `3 * altitude`
otherwise, in both cases replaced by the configured maximum exactly when
the raw value exceeds it. -/
theorem dynamic_map_radius_clamp (hfov_of : CameraData → ℚ) (cd : CameraData)
    (max_map_radius altitude : ℚ) (h : 0 < altitude) :
    (1.5 * hfov_of cd * altitude ≤ max_map_radius →
      get_dynamic_map_radius hfov_of (some cd) max_map_radius altitude =
        1.5 * hfov_of cd * altitude) ∧
    (1.5 * hfov_of cd * altitude > max_map_radius →
      get_dynamic_map_radius hfov_of (some cd) max_map_radius altitude = max_map_radius) ∧
    (3 * altitude ≤ max_map_radius →
      get_dynamic_map_radius hfov_of none max_map_radius altitude = 3 * altitude) ∧
    (3 * altitude > max_map_radius →
      get_dynamic_map_radius hfov_of none max_map_radius altitude = max_map_radius) := by
  refine ⟨fun hc => ?_, fun hc => ?_, fun hc => ?_, fun hc => ?_⟩ <;>
    simp only [get_dynamic_map_radius] <;>
    first
      | rw [if_neg (not_lt.mpr hc)]
      | rw [if_pos hc]

theorem dynamic_map_radius_clamp_witness :
    get_dynamic_map_radius (fun _ => 1) (some testCameraData) 400 100 = 150 ∧
    get_dynamic_map_radius (fun _ => 1) (some testCameraData) 400 1000 = 400 :=
  ⟨((dynamic_map_radius_clamp (fun _ => 1) testCameraData 400 100 (by norm_num)).1
      (by norm_num)).trans (by norm_num),
   (dynamic_map_radius_clamp (fun _ => 1) testCameraData 400 1000 (by norm_num)).2.1
      (by norm_num)⟩

/-- The padded diagonal is at least the squared-sum it covers. -/
theorem ceilSqrt_sq_le (n : ℕ) : n ≤ ceilSqrt n ^ 2 := by
  rw [ceilSqrt]
  split
  · rename_i hx
    rw [pow_two, hx]
  · rw [pow_two]
    exact (Nat.lt_succ_sqrt n).le

/-- The padded diagonal is the least natural whose square covers the sum. -/
theorem ceilSqrt_pred_sq_lt (n : ℕ) (hn : 0 < n) : (ceilSqrt n - 1) ^ 2 < n := by
  rw [ceilSqrt]
  split
  · rename_i hx
    have hs : 1 ≤ Nat.sqrt n := Nat.sqrt_pos.mpr hn
    calc (Nat.sqrt n - 1) ^ 2 < Nat.sqrt n ^ 2 :=
          Nat.pow_lt_pow_left (Nat.sub_lt hs Nat.one_pos) (by norm_num)
      _ = n := by rw [pow_two, hx]
  · rename_i hx
    have h1 : Nat.sqrt n + 1 - 1 = Nat.sqrt n := rfl
    rw [h1, pow_two]
    exact lt_of_le_of_ne (Nat.sqrt_le n) hx

theorem sqrt_640000 : Nat.sqrt 640000 = 800 := by
  norm_num

/-- C4: with declared camera dimensions of positive height and width, the
padded map size is the square `(d, d)` with `d = ceil(sqrt(h^2 + w^2))`
(characterized as the least natural whose square covers `h^2 + w^2`); for
height 480 and width 640 it is `(800, 800)`; without camera data it is
`None`. -/
theorem map_size_with_padding_spec (cd : CameraData)
    (hh : 0 < cd.dim.height) (hw : 0 < cd.dim.width) :
    (∃ d, map_size_with_padding (some cd) = some (d, d) ∧
      cd.dim.width ^ 2 + cd.dim.height ^ 2 ≤ d ^ 2 ∧
      (d - 1) ^ 2 < cd.dim.width ^ 2 + cd.dim.height ^ 2) ∧
    (cd.dim.height = 480 → cd.dim.width = 640 →
      map_size_with_padding (some cd) = some (800, 800)) ∧
    map_size_with_padding none = none := by
  refine ⟨⟨ceilSqrt (cd.dim.width ^ 2 + cd.dim.height ^ 2), rfl,
      ceilSqrt_sq_le _, ceilSqrt_pred_sq_lt _ ?_⟩, fun h1 h2 => ?_, rfl⟩
  · positivity
  · rw [map_size_with_padding, h1, h2]
    norm_num [ceilSqrt, sqrt_640000]

theorem map_size_with_padding_spec_witness :
    map_size_with_padding (some testCameraData480) = some (800, 800) ∧
    map_size_with_padding (none : Option CameraData) = none :=
  ⟨(map_size_with_padding_spec testCameraData480 (by decide) (by decide)).2.1 rfl rfl,
   (map_size_with_padding_spec testCameraData480 (by decide) (by decide)).2.2⟩

/-- C5: `_is_valid_estimate` rejects when the required attitude (static
camera) or dispatch-time rotation guess (gimbaled camera) is unavailable,
and otherwise rejects exactly when the rotation-difference magnitude
strictly exceeds the attitude-deviation threshold converted from degrees
to radians; a magnitude exactly equal to the threshold is accepted. -/
theorem validity_check_boundary (radians : ℚ → ℚ) (static_camera : Bool)
    (att : Option Attitude) (rg : Option (List (List ℚ)))
    (magnitude threshold_deg : ℚ) :
    (static_camera = true → att = none →
      is_valid_estimate radians static_camera att rg magnitude threshold_deg = false) ∧
    (static_camera = false → rg = none →
      is_valid_estimate radians static_camera att rg magnitude threshold_deg = false) ∧
    ((static_camera = true → att ≠ none) → (static_camera = false → rg ≠ none) →
      (is_valid_estimate radians static_camera att rg magnitude threshold_deg = false ↔
        magnitude > radians threshold_deg)) ∧
    ((static_camera = true → att ≠ none) → (static_camera = false → rg ≠ none) →
      magnitude = radians threshold_deg →
      is_valid_estimate radians static_camera att rg magnitude threshold_deg = true) := by
  refine ⟨fun h1 h2 => ?_, fun h1 h2 => ?_, fun h1 h2 => ?_, fun h1 h2 h3 => ?_⟩
  · simp [is_valid_estimate, h1, h2]
  · simp [is_valid_estimate, h1, h2]
  · cases static_camera
    · have hrg : rg ≠ none := h2 rfl
      by_cases hm : magnitude > radians threshold_deg <;>
        simp [is_valid_estimate, Option.isNone_iff_eq_none, hrg, hm]
    · have hatt : att ≠ none := h1 rfl
      by_cases hm : magnitude > radians threshold_deg <;>
        simp [is_valid_estimate, Option.isNone_iff_eq_none, hatt, hm]
  · cases static_camera
    · have hrg : rg ≠ none := h2 rfl
      simp [is_valid_estimate, Option.isNone_iff_eq_none, hrg, h3]
    · have hatt : att ≠ none := h1 rfl
      simp [is_valid_estimate, Option.isNone_iff_eq_none, hatt, h3]

theorem validity_check_boundary_witness :
    is_valid_estimate id false none (some [[1]]) 10 10 = true ∧
    is_valid_estimate id false none (some [[1]]) 11 10 = false :=
  ⟨(validity_check_boundary id false none (some [[1]]) 10 10).2.2.2
      (by simp) (fun _ => by simp) rfl,
   (validity_check_boundary id false none (some [[1]]) 11 10).2.2.1
      (by simp) (fun _ => by simp) |>.mpr (by norm_num)⟩

def testRaw : RawPose := ([[1]], [0])

def testPose : Pose := { r := [[1]], t := [0] }

def testImg2 : Img := { arr := [[0, 0], [0, 0]] }

/-- The `FixedCamera` value the callback builds from a resolved query and
a constructed pose, when construction succeeds. -/
def builtFixedCamera (pose : Pose) (q : AsyncPoseQuery) : FixedCamera :=
  { pose := pose, image_pair := q.image_pair,
    ground_elevation := q.input_data.ground_elevation,
    ground_elevation_ellipsoid := q.input_data.ground_elevation_ellipsoid,
    timestamp := q.image_pair.qry.timestamp }

theorem mkFixedCamera_built (fc_ok : Pose → ImagePair → Bool) (pose : Pose)
    (q : AsyncPoseQuery) :
    mkFixedCamera fc_ok pose q.image_pair q.input_data.ground_elevation
      q.input_data.ground_elevation_ellipsoid q.image_pair.qry.timestamp =
      if fc_ok pose q.image_pair then some (builtFixedCamera pose q) else none := rfl

/-- Characterization of the pose-estimation callback in a state whose
query is resolved to `q`. -/
theorem pose_callback_eq (mkPose : RawPose → Option Pose)
    (fc_ok : Pose → ImagePair → Bool) (valid : FixedCamera → InputData → Bool)
    (s : NodeState) (q : AsyncPoseQuery) (result : Option RawPose)
    (hq : s.pose_estimation_query = some q) :
    pose_estimation_worker_callback mkPose fc_ok valid s result =
      match result with
      | none => (s, [])
      | some raw =>
        match mkPose raw with
        | none => (s, [])
        | some pose =>
          if fc_ok pose q.image_pair then
            if valid (builtFixedCamera pose q) q.input_data then
              ({ s with pose_guess := some pose,
                        map_input_data_prev := s.map_input_data,
                        fixed_camera_prev := some (builtFixedCamera pose q) },
               [builtFixedCamera pose q])
            else
              ({ s with pose_guess := some pose }, [])
          else
            ({ s with pose_guess := some pose }, []) := by
  cases result with
  | none => rfl
  | some raw =>
    simp only [pose_estimation_worker_callback]
    cases mkPose raw with
    | none => rfl
    | some pose =>
      simp only [hq, mkFixedCamera_built fc_ok pose q]
      by_cases hok : fc_ok pose q.image_pair
      · rw [if_pos hok, if_pos hok]
      · rw [if_neg hok, if_neg hok]

/-- C6: whenever the pose worker returns no pose, or `FixedCamera`
construction fails, or the validity check fails, the callback publishes
nothing and leaves `_fixed_camera_prev` and `_map_input_data_prev`
unchanged; any published result passed the validity check and both
previous-state fields are then updated. -/
theorem skip_on_invalid_publication_atomic (mkPose : RawPose → Option Pose)
    (fc_ok : Pose → ImagePair → Bool) (valid : FixedCamera → InputData → Bool)
    (s : NodeState) (q : AsyncPoseQuery) (result : Option RawPose)
    (hq : s.pose_estimation_query = some q) :
    (result = none →
      (pose_estimation_worker_callback mkPose fc_ok valid s result).2 = [] ∧
      (pose_estimation_worker_callback mkPose fc_ok valid s result).1.fixed_camera_prev =
        s.fixed_camera_prev ∧
      (pose_estimation_worker_callback mkPose fc_ok valid s result).1.map_input_data_prev =
        s.map_input_data_prev) ∧
    (∀ raw pose, result = some raw → mkPose raw = some pose →
      mkFixedCamera fc_ok pose q.image_pair q.input_data.ground_elevation
        q.input_data.ground_elevation_ellipsoid q.image_pair.qry.timestamp = none →
      (pose_estimation_worker_callback mkPose fc_ok valid s result).2 = [] ∧
      (pose_estimation_worker_callback mkPose fc_ok valid s result).1.fixed_camera_prev =
        s.fixed_camera_prev ∧
      (pose_estimation_worker_callback mkPose fc_ok valid s result).1.map_input_data_prev =
        s.map_input_data_prev) ∧
    (∀ raw pose fc, result = some raw → mkPose raw = some pose →
      mkFixedCamera fc_ok pose q.image_pair q.input_data.ground_elevation
        q.input_data.ground_elevation_ellipsoid q.image_pair.qry.timestamp = some fc →
      valid fc q.input_data = false →
      (pose_estimation_worker_callback mkPose fc_ok valid s result).2 = [] ∧
      (pose_estimation_worker_callback mkPose fc_ok valid s result).1.fixed_camera_prev =
        s.fixed_camera_prev ∧
      (pose_estimation_worker_callback mkPose fc_ok valid s result).1.map_input_data_prev =
        s.map_input_data_prev) ∧
    (∀ fc, fc ∈ (pose_estimation_worker_callback mkPose fc_ok valid s result).2 →
      valid fc q.input_data = true ∧
      (pose_estimation_worker_callback mkPose fc_ok valid s result).1.fixed_camera_prev =
        some fc ∧
      (pose_estimation_worker_callback mkPose fc_ok valid s result).1.map_input_data_prev =
        s.map_input_data) := by
  rw [pose_callback_eq mkPose fc_ok valid s q result hq]
  refine ⟨fun h => ?_, fun raw pose h1 h2 h3 => ?_, fun raw pose fc h1 h2 h3 h4 => ?_,
    fun fc hmem => ?_⟩
  · subst h
    exact ⟨rfl, rfl, rfl⟩
  · subst h1
    rw [mkFixedCamera_built fc_ok pose q] at h3
    cases hok : fc_ok pose q.image_pair with
    | true => rw [hok] at h3; simp at h3
    | false =>
      simp [h2, hok]
  · subst h1
    rw [mkFixedCamera_built fc_ok pose q] at h3
    cases hok : fc_ok pose q.image_pair with
    | false => rw [hok] at h3; simp at h3
    | true =>
      rw [hok, if_pos rfl] at h3
      have hfc : builtFixedCamera pose q = fc := Option.some_injective _ h3
      rw [← hfc] at h4
      simp [h2, hok, h4]
  · cases result with
    | none => simp at hmem
    | some raw =>
      cases hp : mkPose raw with
      | none => simp [hp] at hmem
      | some pose =>
        simp only [hp] at hmem
        cases hok : fc_ok pose q.image_pair with
        | false => simp [hok] at hmem
        | true =>
          cases hv : valid (builtFixedCamera pose q) q.input_data with
          | false => simp [hok, hv] at hmem
          | true =>
            simp only [hok, if_true, hv, List.mem_singleton] at hmem
            subst hmem
            simp [hp, hok, hv]

theorem skip_on_invalid_publication_atomic_witness :
    (pose_estimation_worker_callback (fun _ => some testPose) (fun _ _ => true)
      (fun _ _ => false) testStatePending (some testRaw)).2 = [] ∧
    (pose_estimation_worker_callback (fun _ => some testPose) (fun _ _ => true)
      (fun _ _ => false) testStatePending (some testRaw)).1.fixed_camera_prev =
      testStatePending.fixed_camera_prev ∧
    (pose_estimation_worker_callback (fun _ => some testPose) (fun _ _ => true)
      (fun _ _ => false) testStatePending (some testRaw)).1.map_input_data_prev =
      testStatePending.map_input_data_prev :=
  (skip_on_invalid_publication_atomic (fun _ => some testPose) (fun _ _ => true)
      (fun _ _ => false) testStatePending testPoseQuery (some testRaw) rfl).2.2.1
    testRaw testPose (builtFixedCamera testPose testPoseQuery) rfl rfl rfl rfl

/-- C7: a successful WMS fetch callback replaces the stored `MapData`
wholesale with a record built from the fetched raster and the
dispatch-time requested bounding box, while the error callback leaves the
state, in particular the stored `MapData`, exactly as it was. -/
theorem map_data_wholesale_replacement (camera_data : Option CameraData)
    (s : NodeState) (q : AsyncWMSQuery) (map_ : Img) (elevation : Option Img)
    (hq : s.wms_query = some q)
    (hshape : some map_.shape = map_size_with_padding camera_data)
    (helev : ∀ e, elevation = some e → e.shape = map_.shape) :
    (wms_pool_worker_callback camera_data s map_ elevation).map_data =
      some { bbox := q.geobbox, image := map_, elevation := elevation } ∧
    wms_pool_worker_error_callback s = s := by
  refine ⟨?_, rfl⟩
  have h1 : decide (some map_.shape = map_size_with_padding camera_data) = true :=
    decide_eq_true hshape
  cases he : elevation with
  | none => simp [wms_pool_worker_callback, h1, hq]
  | some e =>
    have h2 : decide (e.shape = map_.shape) = true := decide_eq_true (helev e he)
    simp [wms_pool_worker_callback, h1, h2, hq]

theorem map_data_wholesale_replacement_witness :
    (wms_pool_worker_callback (some testCameraData) testStatePending testImg2 none).map_data =
      some { bbox := testSquare, image := testImg2, elevation := none } ∧
    wms_pool_worker_error_callback testStatePending = testStatePending :=
  map_data_wholesale_replacement (some testCameraData) testStatePending testWMSQuery
    testImg2 none rfl
    (by norm_num [Img.shape, testImg2, map_size_with_padding, ceilSqrt, testCameraData,
      testDim])
    (fun e h => Option.noConfusion h)

/-- C8: `_estimate` records the dispatched image pair and input data in
the `AsyncPoseQuery`; every published `FixedCamera` is built from the
query's dispatch-time image pair, ground elevations and query-image
timestamp; and the published output is unchanged under any change of the
live coordinator state that keeps the same stored query. -/
theorem dispatch_snapshot_fidelity (mkPose : RawPose → Option Pose)
    (fc_ok : Pose → ImagePair → Bool) (valid : FixedCamera → InputData → Bool)
    (s : NodeState) (q : AsyncPoseQuery) (result : Option RawPose)
    (ip : ImagePair) (idata : InputData)
    (hq : s.pose_estimation_query = some q) :
    ((estimate s ip idata).pose_estimation_query =
      some { resultReady := false, image_pair := ip, input_data := idata }) ∧
    (∀ fc, fc ∈ (pose_estimation_worker_callback mkPose fc_ok valid s result).2 →
      fc.image_pair = q.image_pair ∧
      fc.ground_elevation = q.input_data.ground_elevation ∧
      fc.ground_elevation_ellipsoid = q.input_data.ground_elevation_ellipsoid ∧
      fc.timestamp = q.image_pair.qry.timestamp) ∧
    (∀ s2 : NodeState, s2.pose_estimation_query = s.pose_estimation_query →
      (pose_estimation_worker_callback mkPose fc_ok valid s2 result).2 =
        (pose_estimation_worker_callback mkPose fc_ok valid s result).2) := by
  refine ⟨rfl, fun fc hmem => ?_, fun s2 h2 => ?_⟩
  · rw [pose_callback_eq mkPose fc_ok valid s q result hq] at hmem
    cases result with
    | none => simp at hmem
    | some raw =>
      cases hp : mkPose raw with
      | none => simp [hp] at hmem
      | some pose =>
        simp only [hp] at hmem
        cases hok : fc_ok pose q.image_pair with
        | false => simp [hok] at hmem
        | true =>
          cases hv : valid (builtFixedCamera pose q) q.input_data with
          | false => simp [hok, hv] at hmem
          | true =>
            simp only [hok, if_true, hv, List.mem_singleton] at hmem
            subst hmem
            exact ⟨rfl, rfl, rfl, rfl⟩
  · rw [pose_callback_eq mkPose fc_ok valid s q result hq,
      pose_callback_eq mkPose fc_ok valid s2 q result (h2.trans hq)]
    cases result with
    | none => rfl
    | some raw =>
      cases hp : mkPose raw with
      | none => simp [hp]
      | some pose =>
        simp only [hp]
        cases hok : fc_ok pose q.image_pair with
        | false => simp [hok]
        | true =>
          cases hv : valid (builtFixedCamera pose q) q.input_data with
          | false => simp [hok, hv]
          | true => simp [hok, hv]

theorem dispatch_snapshot_fidelity_witness :
    ((estimate testStatePending testImagePair testInputData).pose_estimation_query =
      some { resultReady := false, image_pair := testImagePair,
             input_data := testInputData }) ∧
    (∀ fc, fc ∈ (pose_estimation_worker_callback (fun _ => some testPose)
        (fun _ _ => true) (fun _ _ => true) testStatePending (some testRaw)).2 →
      fc.image_pair = testPoseQuery.image_pair ∧
      fc.ground_elevation = testPoseQuery.input_data.ground_elevation ∧
      fc.ground_elevation_ellipsoid = testPoseQuery.input_data.ground_elevation_ellipsoid ∧
      fc.timestamp = testPoseQuery.image_pair.qry.timestamp) :=
  ⟨(dispatch_snapshot_fidelity (fun _ => some testPose) (fun _ _ => true)
      (fun _ _ => true) testStatePending testPoseQuery (some testRaw) testImagePair
      testInputData rfl).1,
   (dispatch_snapshot_fidelity (fun _ => some testPose) (fun _ _ => true)
      (fun _ _ => true) testStatePending testPoseQuery (some testRaw) testImagePair
      testInputData rfl).2.1⟩

/-- C9: `_setup_map_update_timer` raises a `ValueError` exactly when the
configured map-update timer period is negative; for every period greater
than or equal to zero the timer is created and setup succeeds. -/
theorem negative_timer_period_fails_fast (timer_period : ℤ) :
    (timer_period < 0 → setup_map_update_timer timer_period =
      Except.error "Map update delay must be >0 seconds.") ∧
    (0 ≤ timer_period → setup_map_update_timer timer_period =
      Except.ok { period := timer_period }) := by
  constructor
  · intro h
    rw [setup_map_update_timer, if_pos (not_le.mpr h)]
  · intro h
    rw [setup_map_update_timer, if_neg (not_not_intro h)]

theorem negative_timer_period_fails_fast_witness :
    setup_map_update_timer (-1) = Except.error "Map update delay must be >0 seconds." ∧
    setup_map_update_timer 0 = Except.ok { period := 0 } :=
  ⟨(negative_timer_period_fails_fast (-1)).1 (by decide),
   (negative_timer_period_fails_fast 0).2 (by decide)⟩

/-- C10: once the worker result is non-`None` and the `Pose` constructor
succeeds, `_pose_guess` is overwritten with the new pose — also on frames
later dropped by failed `FixedCamera` construction or a failed validity
check; it stays unchanged only when the worker returned `None` or the
`Pose` constructor failed. -/
theorem pose_guess_updated_before_validity (mkPose : RawPose → Option Pose)
    (fc_ok : Pose → ImagePair → Bool) (valid : FixedCamera → InputData → Bool)
    (s : NodeState) (result : Option RawPose) :
    (result = none →
      (pose_estimation_worker_callback mkPose fc_ok valid s result).1.pose_guess =
        s.pose_guess) ∧
    (∀ raw, result = some raw → mkPose raw = none →
      (pose_estimation_worker_callback mkPose fc_ok valid s result).1.pose_guess =
        s.pose_guess) ∧
    (∀ raw pose, result = some raw → mkPose raw = some pose →
      (pose_estimation_worker_callback mkPose fc_ok valid s result).1.pose_guess =
        some pose) := by
  refine ⟨fun h => ?_, fun raw h1 h2 => ?_, fun raw pose h1 h2 => ?_⟩
  · subst h
    rfl
  · subst h1
    simp [pose_estimation_worker_callback, h2]
  · subst h1
    simp only [pose_estimation_worker_callback, h2]
    cases hsq : s.pose_estimation_query with
    | none => simp [hsq]
    | some q =>
      simp only [hsq]
      cases mkFixedCamera fc_ok pose q.image_pair q.input_data.ground_elevation
          q.input_data.ground_elevation_ellipsoid q.image_pair.qry.timestamp with
      | none => rfl
      | some fc =>
        by_cases hv : valid fc q.input_data
        · simp [hv]
        · simp [hv]

theorem pose_guess_updated_before_validity_witness :
    (pose_estimation_worker_callback (fun _ => some testPose) (fun _ _ => false)
      (fun _ _ => true) testStatePending (some testRaw)).1.pose_guess = some testPose :=
  (pose_guess_updated_before_validity (fun _ => some testPose) (fun _ _ => false)
      (fun _ _ => true) testStatePending (some testRaw)).2.2 testRaw testPose rfl rfl

end GisNav
